import Mathlib

/-!
Verification development for the wizclaw bridge daemon.

Shallow embedding of the pieces of the source the properties refer to:

  - bridge/client.py   : BridgeClient.run (reconnect loop with exponential
                         backoff), BridgeClient.handle_message (the inbound
                         message dispatcher) and
                         BridgeClient.handle_tool_request (tool execution
                         and the single tool_response send);
  - bridge/openclaw.py : OpenClawClient.aquery (HTTP call to the local
                         agent, mapping transport failures to a
                         connection-level error and HTTP status failures
                         to a runtime error);
  - bridge/launcher.py : OpenClawLauncher.start, ensure_running,
                         wait_until_ready and terminate (process
                         supervision and diagnostics capture).

External effects (the network, the child process, the clock) are modelled
as explicit oracle inputs; sends on the websocket are modelled as an
output list of (connection id, message) pairs, and the mutable launcher
attributes as an explicit state record threaded through the functions.
-/

namespace Bridge

/-! ## BridgeClient.run - the reconnect loop (bridge/client.py lines 33-51)

Each iteration of the loop either ends in a clean disconnect (the body of
the try completed, so backoff is reset to 1 before the sleep) or in an
errored disconnect (an exception was caught, the current backoff is kept).
The loop then sleeps for the current backoff value and sets
backoff := min (backoff * 2) reconnect_max.  The loop itself never
returns; we model the infinite trace by the sleep intervals produced for
an arbitrary finite list of disconnect outcomes. -/

/-- How one pass through the connect-and-listen body ended. -/
inductive Outcome
  | clean
  | err
deriving DecidableEq, Repr

/-- The value slept this iteration: after a clean disconnect the code has
just reset backoff to 1; after an errored disconnect the current backoff
is used unchanged. -/
def sleepOf (backoff : Nat) : Outcome → Nat
  | Outcome.clean => 1
  | Outcome.err => backoff

/-- The sleep intervals of successive iterations of BridgeClient.run,
starting from a given current backoff.  After sleeping, the code sets
backoff to min (slept * 2) reconnect_max. -/
def runSleepsAux (reconnect_max : Nat) : Nat → List Outcome → List Nat
  | _, [] => []
  | backoff, o :: rest =>
      sleepOf backoff o ::
        runSleepsAux reconnect_max (min (sleepOf backoff o * 2) reconnect_max) rest

/-- The sleep intervals of BridgeClient.run for a given trace of
disconnect outcomes; the loop enters with backoff = 1. -/
def runSleeps (reconnect_max : Nat) (outcomes : List Outcome) : List Nat :=
  runSleepsAux reconnect_max 1 outcomes

/-- Relation between consecutive (sleep, outcome) pairs of the run loop:
the sleep after a clean disconnect is the minimum (1); the sleep after an
errored disconnect is double the previous sleep, capped at the
configured maximum. -/
def backoffNext (reconnect_max : Nat) (p q : Nat × Outcome) : Prop :=
  q.1 = match q.2 with
    | Outcome.clean => 1
    | Outcome.err => min (p.1 * 2) reconnect_max

lemma runSleepsAux_bounds (m : Nat) (hm : 1 ≤ m) :
    ∀ (outcomes : List Outcome) (b : Nat), 1 ≤ b → b ≤ m →
      ∀ s ∈ runSleepsAux m b outcomes, 1 ≤ s ∧ s ≤ m := by
  intro outcomes
  induction outcomes with
  | nil =>
      intro b _ _ s hs
      simp [runSleepsAux] at hs
  | cons o rest ih =>
      intro b hb1 hbm s hs
      simp only [runSleepsAux, List.mem_cons] at hs
      rcases hs with hs | hs
      · subst hs
        cases o
        · exact ⟨le_refl 1, hm⟩
        · exact ⟨hb1, hbm⟩
      · refine ih (min (sleepOf b o * 2) m) ?_ (min_le_right _ _) s hs
        cases o <;> simp only [sleepOf] <;> omega

lemma runSleepsAux_head (m : Nat) (b : Nat) (o : Outcome) (rest : List Outcome) :
    (runSleepsAux m b (o :: rest)).head? = some (sleepOf b o) := by
  simp [runSleepsAux]

lemma runSleepsAux_chain (m : Nat) :
    ∀ (outcomes : List Outcome) (b : Nat),
      List.Chain' (backoffNext m) ((runSleepsAux m b outcomes).zip outcomes) := by
  intro outcomes
  induction outcomes with
  | nil => intro b; simp [runSleepsAux]
  | cons o rest ih =>
      intro b
      cases rest with
      | nil => simp [runSleepsAux]
      | cons o2 rest2 =>
          have h := ih (min (sleepOf b o * 2) m)
          simp only [runSleepsAux, List.zip_cons_cons] at h ⊢
          refine List.chain'_cons.mpr ⟨?_, h⟩
          cases o2 <;> simp [backoffNext, sleepOf]

/-- Claim C1: along every trace of disconnect outcomes of
BridgeClient.run, each sleep interval is between the minimum (1) and the
configured maximum; the first sleep is the minimum; and each later sleep
is 1 right after a clean disconnect and double the previous sleep, capped
at the configured maximum, after a failed or errored disconnect. -/
theorem run_backoff_policy (m : Nat) (hm : 1 ≤ m) (outcomes : List Outcome) :
    (∀ s ∈ runSleeps m outcomes, 1 ≤ s ∧ s ≤ m) ∧
    (runSleeps m outcomes).head? = outcomes.head?.map (fun _ => 1) ∧
    List.Chain' (backoffNext m) ((runSleeps m outcomes).zip outcomes) := by
  refine ⟨runSleepsAux_bounds m hm outcomes 1 (le_refl 1) hm, ?_, runSleepsAux_chain m outcomes 1⟩
  cases outcomes with
  | nil => simp [runSleeps, runSleepsAux]
  | cons o rest =>
      rw [runSleeps, runSleepsAux_head]
      cases o <;> simp [sleepOf]

/-- Witness for run_backoff_policy at the default maximum 30 and a
concrete trace with errors before and after a clean disconnect. -/
theorem run_backoff_policy_witness :
    1 ≤ 30 ∧
    ((∀ s ∈ runSleeps 30 [Outcome.err, Outcome.err, Outcome.clean, Outcome.err],
        1 ≤ s ∧ s ≤ 30) ∧
      (runSleeps 30 [Outcome.err, Outcome.err, Outcome.clean, Outcome.err]).head? =
        ([Outcome.err, Outcome.err, Outcome.clean, Outcome.err].head?.map (fun _ => 1)) ∧
      List.Chain' (backoffNext 30)
        ((runSleeps 30 [Outcome.err, Outcome.err, Outcome.clean, Outcome.err]).zip
          [Outcome.err, Outcome.err, Outcome.clean, Outcome.err])) :=
  ⟨by norm_num,
    run_backoff_policy 30 (by norm_num) [Outcome.err, Outcome.err, Outcome.clean, Outcome.err]⟩

/-! ## OpenClawClient.aquery (bridge/openclaw.py lines 31-56)

The HTTP exchange itself is an oracle: it either fails at the transport
level (httpx.ConnectError), fails with a non-2xx status
(httpx.HTTPStatusError, carrying the status code and body text), or
returns a parsed JSON body whose choices list we model by the value of
choices[0].get("message", dict).get("content", "") for each choice
(none when the keys are absent, in which case the code defaults to ""). -/

/-- One element of the choices list of the agent reply: the value of the
content field under message, when present. -/
structure Choice where
  message_content : Option String
deriving DecidableEq, Repr

/-- Outcome of the POST to /v1/chat/completions. -/
inductive HttpResult
  | connectError
  | statusError (code : Nat) (text : String)
  | ok (choices : List Choice)
deriving DecidableEq, Repr

/-- The exception aquery raises: ConnectionError for a transport failure,
RuntimeError for an HTTP status failure.  The string is the message the
exception is constructed with. -/
inductive QueryError
  | connectionError (msg : String)
  | runtimeError (msg : String)
deriving DecidableEq, Repr

set_option linter.unusedVariables false in
/-- OpenClawClient.aquery: posts the user query to the agent and returns
the reply text of the first choice (content defaulting to ""), a
placeholder string when the choices list is empty; raises ConnectionError
on httpx.ConnectError and RuntimeError on httpx.HTTPStatusError (the body
text truncated to 500 characters).  The response of the agent is the
oracle, so the query only determines what is sent. -/
def aquery (base_url : String) (user_query : String) (http : HttpResult) :
    Except QueryError String :=
  match http with
  | HttpResult.connectError =>
      Except.error (QueryError.connectionError
        ("Cannot connect to OpenClaw at " ++ base_url))
  | HttpResult.statusError code text =>
      Except.error (QueryError.runtimeError
        ("OpenClaw returned HTTP " ++ toString code ++ ": " ++ text.take 500))
  | HttpResult.ok choices =>
      match choices with
      | [] => Except.ok "[OpenClaw] No response choices returned."
      | c :: _ => Except.ok (c.message_content.getD "")

/-! ## BridgeClient message dispatch (bridge/client.py lines 68-123)

An inbound frame either fails json.loads (malformed) or parses to an
object; of a parsed object the dispatcher reads the fields type,
request_id, tool_name and arguments, each possibly absent, and of the
arguments mapping only the query key is ever read.  Sends on the
websocket are collected as (connection id, message) pairs, so sending on
the same connection the request arrived on is visible in the model. -/

/-- The arguments mapping of a tool_request; only its query key is read. -/
structure Arguments where
  query : Option String
deriving DecidableEq, Repr

/-- A parsed inbound JSON object, with each field the dispatcher reads. -/
structure InMsg where
  type : Option String
  request_id : Option String
  tool_name : Option String
  arguments : Option Arguments
deriving DecidableEq, Repr

/-- An inbound frame: either not parseable as JSON, or a parsed object. -/
inductive Inbound
  | malformed (raw : String)
  | msg (m : InMsg)
deriving DecidableEq, Repr

/-- The tool_response JSON object built by handle_tool_request. -/
structure ToolResponse where
  type : String
  request_id : String
  success : Bool
  result : Option String
  error : Option String
deriving DecidableEq, Repr

/-- A message sent on the websocket. -/
inductive OutMsg
  | status (openclaw_status : String) (client_version : String)
  | pong
  | toolResponse (r : ToolResponse)
deriving DecidableEq, Repr

/-- BridgeClient.handle_tool_request, the response value: starts from a
response with success false and null result and error; for tool name
local_openclaw it queries the agent with arguments.get("query", "") and
fills success/result on success, an OpenClaw-unreachable error when a
ConnectionError was raised, and a generic failure message for any other
exception; any other tool name yields an unsupported-tool error. -/
def handle_tool_request (base_url : String) (http : HttpResult)
    (request_id tool_name : String) (arguments : Arguments) : ToolResponse :=
  let response : ToolResponse :=
    { type := "tool_response", request_id := request_id, success := false,
      result := none, error := none }
  if tool_name = "local_openclaw" then
    let query := arguments.query.getD ""
    match aquery base_url query http with
    | Except.ok result =>
        { response with success := true, result := some result }
    | Except.error (QueryError.connectionError e) =>
        { response with error := some ("OpenClaw unreachable: " ++ e) }
    | Except.error (QueryError.runtimeError e) =>
        { response with error := some ("Tool execution failed: " ++ e) }
  else
    { response with error := some ("Unsupported tool: " ++ tool_name) }

/-- The sends performed by handle_tool_request: exactly the single
ws.send of the response at the end of the method, on the connection the
request arrived on. -/
def handle_tool_request_sends (base_url : String) (http : HttpResult) (ws : Nat)
    (request_id tool_name : String) (arguments : Arguments) : List (Nat × OutMsg) :=
  [(ws, OutMsg.toolResponse (handle_tool_request base_url http request_id tool_name arguments))]

/-- BridgeClient.handle_message: a frame that fails json.loads is logged
and dropped; an object of type tool_request is dispatched to
handle_tool_request with request_id and tool_name defaulting to "" and
arguments defaulting to the empty mapping; a ping is answered by a pong;
anything else is ignored. -/
def handle_message (base_url : String) (http : HttpResult) (ws : Nat) :
    Inbound → List (Nat × OutMsg)
  | Inbound.malformed _ => []
  | Inbound.msg m =>
      match m.type with
      | some "tool_request" =>
          handle_tool_request_sends base_url http ws (m.request_id.getD "")
            (m.tool_name.getD "") (m.arguments.getD { query := none })
      | some "ping" => [(ws, OutMsg.pong)]
      | _ => []

/-- The receive loop while connected: each inbound frame is handled in
arrival order (paired with the oracle outcome of the agent call its
handling would make), and the sends accumulate in order. -/
def dispatch_loop (base_url : String) (ws : Nat) :
    List (Inbound × HttpResult) → List (Nat × OutMsg)
  | [] => []
  | p :: rest => handle_message base_url p.2 ws p.1 ++ dispatch_loop base_url ws rest

lemma handle_tool_request_frame (base_url : String) (http : HttpResult)
    (request_id tool_name : String) (arguments : Arguments) :
    (handle_tool_request base_url http request_id tool_name arguments).type =
      "tool_response" ∧
    (handle_tool_request base_url http request_id tool_name arguments).request_id =
      request_id := by
  by_cases h : tool_name = "local_openclaw"
  · cases http with
    | connectError => simp [handle_tool_request, aquery, h]
    | statusError code text => simp [handle_tool_request, aquery, h]
    | ok choices => cases choices <;> simp [handle_tool_request, aquery, h]
  · simp [handle_tool_request, h]

/-- Claim C2: a parsed inbound object of type tool_request carrying a
request_id produces exactly one send, a tool_response on the same
connection the request arrived on, whose request_id equals that of the
request. -/
theorem tool_response_one_per_request (base_url : String) (http : HttpResult)
    (ws : Nat) (rid : String) (tn : Option String) (ar : Option Arguments) :
    ∃ r : ToolResponse,
      handle_message base_url http ws
          (Inbound.msg
            { type := some "tool_request", request_id := some rid,
              tool_name := tn, arguments := ar }) =
        [(ws, OutMsg.toolResponse r)] ∧
      r.type = "tool_response" ∧ r.request_id = rid := by
  refine ⟨handle_tool_request base_url http rid (tn.getD "") (ar.getD { query := none }),
    rfl, ?_⟩
  simpa using handle_tool_request_frame base_url http rid (tn.getD "") (ar.getD { query := none })

/-- Claim C3: a tool_request naming any tool other than local_openclaw
yields a tool_response with success false, null result, and a non-empty
error string that ends in the name of the unsupported tool. -/
theorem unsupported_tool_response (base_url : String) (http : HttpResult)
    (rid tn : String) (arguments : Arguments) (h : tn ≠ "local_openclaw") :
    handle_tool_request base_url http rid tn arguments =
      { type := "tool_response", request_id := rid, success := false,
        result := none, error := some ("Unsupported tool: " ++ tn) } ∧
    ("Unsupported tool: " ++ tn) ≠ "" := by
  constructor
  · simp [handle_tool_request, h]
  · intro hempty
    have hlen := congrArg String.length hempty
    simp [String.length_append] at hlen
    exact absurd hlen.1 (by decide)

/-- Witness for unsupported_tool_response at the tool name shell. -/
theorem unsupported_tool_response_witness :
    "shell" ≠ "local_openclaw" ∧
    (handle_tool_request "http://localhost:18789" HttpResult.connectError
        "req-1" "shell" { query := none } =
      { type := "tool_response", request_id := "req-1", success := false,
        result := none, error := some ("Unsupported tool: " ++ "shell") } ∧
      ("Unsupported tool: " ++ "shell") ≠ "") :=
  ⟨by decide,
    unsupported_tool_response "http://localhost:18789" HttpResult.connectError
      "req-1" "shell" { query := none } (by decide)⟩

/-- Claim C4: handling a local_openclaw tool_request yields, on a
transport-level failure reaching the agent, success false with an error
naming the agent as unreachable; on any other failure (an HTTP status
error), success false with a generic failure message; on success, success
true with the reply text of the first choice; and in every case the
handler completes normally with exactly the one response send on the
connection the request arrived on. -/
theorem local_openclaw_outcomes (base_url : String) (ws : Nat) (rid : String)
    (arguments : Arguments) :
    (handle_tool_request base_url HttpResult.connectError rid "local_openclaw" arguments =
      { type := "tool_response", request_id := rid, success := false, result := none,
        error := some ("OpenClaw unreachable: " ++
          ("Cannot connect to OpenClaw at " ++ base_url)) }) ∧
    (∀ code text,
      handle_tool_request base_url (HttpResult.statusError code text) rid
          "local_openclaw" arguments =
        { type := "tool_response", request_id := rid, success := false, result := none,
          error := some ("Tool execution failed: " ++
            ("OpenClaw returned HTTP " ++ toString code ++ ": " ++ text.take 500)) }) ∧
    (∀ c rest,
      handle_tool_request base_url (HttpResult.ok (c :: rest)) rid
          "local_openclaw" arguments =
        { type := "tool_response", request_id := rid, success := true,
          result := some (c.message_content.getD ""), error := none }) ∧
    (∀ http, handle_tool_request_sends base_url http ws rid "local_openclaw" arguments =
      [(ws, OutMsg.toolResponse
        (handle_tool_request base_url http rid "local_openclaw" arguments))]) := by
  refine ⟨?_, ?_, ?_, fun _ => rfl⟩
  · simp [handle_tool_request, aquery]
  · intro code text; simp [handle_tool_request, aquery]
  · intro c rest; simp [handle_tool_request, aquery]

/-- Claim C5: a frame that is not parseable as JSON produces no sends and
no errors, and a parsed object whose type is neither tool_request nor
ping likewise produces no sends; in each case the receive loop goes on to
process the remaining frames exactly as it would have without that
frame. -/
theorem malformed_and_unknown_ignored (base_url : String) (http : HttpResult)
    (ws : Nat) (raw : String) (m : InMsg)
    (h1 : m.type ≠ some "tool_request") (h2 : m.type ≠ some "ping") :
    handle_message base_url http ws (Inbound.malformed raw) = [] ∧
    handle_message base_url http ws (Inbound.msg m) = [] ∧
    (∀ rest, dispatch_loop base_url ws ((Inbound.malformed raw, http) :: rest) =
      dispatch_loop base_url ws rest) ∧
    (∀ rest, dispatch_loop base_url ws ((Inbound.msg m, http) :: rest) =
      dispatch_loop base_url ws rest) := by
  have hmsg : handle_message base_url http ws (Inbound.msg m) = [] := by
    simp only [handle_message]
  refine ⟨rfl, hmsg, fun rest => rfl, fun rest => ?_⟩
  simp [dispatch_loop, hmsg]

/-- Witness for malformed_and_unknown_ignored: a non-JSON frame and a
parsed object of type status. -/
theorem malformed_and_unknown_ignored_witness :
    (some "status" ≠ some "tool_request") ∧ (some "status" ≠ some "ping") ∧
    (handle_message "http://localhost:18789" HttpResult.connectError 7
        (Inbound.malformed "not json") = [] ∧
      handle_message "http://localhost:18789" HttpResult.connectError 7
        (Inbound.msg
          { type := some "status", request_id := none,
            tool_name := none, arguments := none }) = [] ∧
      (∀ rest, dispatch_loop "http://localhost:18789" 7
          ((Inbound.malformed "not json", HttpResult.connectError) :: rest) =
        dispatch_loop "http://localhost:18789" 7 rest) ∧
      (∀ rest, dispatch_loop "http://localhost:18789" 7
          ((Inbound.msg
            { type := some "status", request_id := none,
              tool_name := none, arguments := none }, HttpResult.connectError) :: rest) =
        dispatch_loop "http://localhost:18789" 7 rest)) :=
  ⟨by decide, by decide,
    malformed_and_unknown_ignored "http://localhost:18789" HttpResult.connectError 7
      "not json"
      { type := some "status", request_id := none, tool_name := none, arguments := none }
      (by decide) (by decide)⟩

/-- Claim C10: a parsed tool_request with request_id, tool_name or
arguments absent is still dispatched, the absent fields defaulting to ""
(request_id, tool_name) or the empty mapping (arguments), and exactly one
tool_response is emitted echoing the defaulted request_id; when tool_name
is absent the response has success false and the unsupported-tool error
for the empty tool name. -/
theorem missing_fields_defaulted (base_url : String) (http : HttpResult) (ws : Nat)
    (rq tn : Option String) (ar : Option Arguments) :
    (∃ r : ToolResponse,
      handle_message base_url http ws
          (Inbound.msg
            { type := some "tool_request", request_id := rq,
              tool_name := tn, arguments := ar }) =
        [(ws, OutMsg.toolResponse r)] ∧
      r.request_id = rq.getD "") ∧
    (handle_message base_url http ws
        (Inbound.msg
          { type := some "tool_request", request_id := rq,
            tool_name := none, arguments := ar }) =
      [(ws, OutMsg.toolResponse
        { type := "tool_response", request_id := rq.getD "", success := false,
          result := none, error := some "Unsupported tool: " })]) := by
  constructor
  · refine ⟨handle_tool_request base_url http (rq.getD "") (tn.getD "")
      (ar.getD { query := none }), rfl, ?_⟩
    exact (handle_tool_request_frame base_url http (rq.getD "") (tn.getD "")
      (ar.getD { query := none })).2
  · have : handle_tool_request base_url http (rq.getD "") ""
        (ar.getD { query := none }) =
        { type := "tool_response", request_id := rq.getD "", success := false,
          result := none, error := some "Unsupported tool: " } := by
      simp [handle_tool_request]
    simp [handle_message, handle_tool_request_sends, this]

/-! ## OpenClawLauncher (bridge/launcher.py)

The mutable attributes _process and _stderr_file are an explicit state
record; the environment (whether the health probe answers 200, whether
the executable is on PATH, whether Popen raises OSError, what poll() and
is_running() observe on each pass of the readiness loop, and what poll()
observes in the race check of ensure_running) is an explicit oracle
record.  The deadline of wait_until_ready is modelled by the finite list
of loop passes: exhausting the list is the timeout expiring.  The result
records whether the method returned True, the final state, whether Popen
was invoked, and whether read_stderr_log was called to capture the
diagnostic output of the child. -/

/-- What one pass of the wait_until_ready loop observes: whether
process.poll() reports the child exited, and whether is_running() sees a
200 from the health endpoint. -/
structure PollStep where
  exited : Bool
  healthy : Bool
deriving DecidableEq, Repr

/-- The mutable attributes of OpenClawLauncher: the managed process
handle and whether the stderr log file object is open. -/
structure LauncherState where
  process : Option Unit
  stderrOpen : Bool
deriving DecidableEq, Repr

/-- The environment a start / ensure_running call runs against. -/
structure LauncherEnv where
  healthNow : Bool
  exeFound : Bool
  popenOk : Bool
  polls : List PollStep
  exitedAfterStart : Bool
deriving DecidableEq, Repr

/-- Result of wait_until_ready: the returned boolean, the state, and
whether read_stderr_log was called to capture the diagnostics of the
child. -/
structure WaitResult where
  ok : Bool
  state : LauncherState
  stderrRead : Bool
deriving DecidableEq, Repr

/-- Result of start / ensure_running: additionally records whether a
process launch (Popen) was attempted. -/
structure StartResult where
  ok : Bool
  state : LauncherState
  popenCalled : Bool
  stderrRead : Bool
deriving DecidableEq, Repr

/-- OpenClawLauncher.close_stderr: closes the stderr log file object if
open. -/
def close_stderr (st : LauncherState) : LauncherState :=
  { st with stderrOpen := false }

/-- OpenClawLauncher.wait_until_ready: on each pass before the deadline,
first checks whether the process exited prematurely (close the log, read
it for diagnostics, return False), then whether the health endpoint is up
(return True), else sleeps and retries; when the deadline elapses, closes
the log, reads it for diagnostics and returns False. -/
def wait_until_ready (st : LauncherState) : List PollStep → WaitResult
  | [] => { ok := false, state := close_stderr st, stderrRead := true }
  | p :: rest =>
      if st.process.isSome && p.exited then
        { ok := false, state := close_stderr st, stderrRead := true }
      else if p.healthy then
        { ok := true, state := st, stderrRead := false }
      else
        wait_until_ready st rest

/-- OpenClawLauncher.start: returns False when the executable is not on
PATH (nothing was opened or launched); otherwise opens the stderr log and
launches the process, returning False and closing the log if Popen raises
OSError, and otherwise handing over to wait_until_ready with the process
handle set. -/
def start (env : LauncherEnv) (st : LauncherState) : StartResult :=
  if env.exeFound then
    let st1 : LauncherState := { st with stderrOpen := true }
    if env.popenOk then
      let st2 : LauncherState := { st1 with process := some () }
      let w := wait_until_ready st2 env.polls
      { ok := w.ok, state := w.state, popenCalled := true, stderrRead := w.stderrRead }
    else
      { ok := false, state := close_stderr st1, popenCalled := true, stderrRead := false }
  else
    { ok := false, state := st, popenCalled := false, stderrRead := false }

/-- OpenClawLauncher.ensure_running: returns True at once when the health
probe answers (no launch attempted); otherwise starts, and when the start
succeeded but the process handle reports the child already exited (the
race with another launcher), closes the log and clears the handle while
still returning the success. -/
def ensure_running (env : LauncherEnv) (st : LauncherState) : StartResult :=
  if env.healthNow then
    { ok := true, state := st, popenCalled := false, stderrRead := false }
  else
    let r := start env st
    if r.ok && r.state.process.isSome && env.exitedAfterStart then
      { r with state := { close_stderr r.state with process := none } }
    else
      r

/-- Result of terminate: whether the graceful termination signal was
sent, whether the process was force-killed after the grace period, and
the final state. -/
structure TerminateResult where
  terminateSent : Bool
  killSent : Bool
  state : LauncherState
deriving DecidableEq, Repr

/-- OpenClawLauncher.terminate: only when a managed process handle exists
and poll() reports it still alive does it send terminate, wait up to the
grace period, and kill on TimeoutExpired; the stderr log file is closed
in every case.  alive models poll() returning None, graceful models
wait(timeout=5) returning before the grace period elapses. -/
def terminate (alive graceful : Bool) (st : LauncherState) : TerminateResult :=
  if st.process.isSome && alive then
    { terminateSent := true, killSent := !graceful, state := close_stderr st }
  else
    { terminateSent := false, killSent := false, state := close_stderr st }

lemma wait_until_ready_ok_state (st : LauncherState) :
    ∀ polls : List PollStep,
      (wait_until_ready st polls).ok = true → (wait_until_ready st polls).state = st := by
  intro polls
  induction polls with
  | nil => intro h; simp [wait_until_ready] at h
  | cons p rest ih =>
      intro h
      by_cases he : st.process.isSome && p.exited
      · simp [wait_until_ready, he] at h
      · by_cases hh : p.healthy
        · simp [wait_until_ready, he, hh]
        · simp only [wait_until_ready, he, hh] at h ⊢
          simp only [Bool.false_eq_true, if_false] at h ⊢
          exact ih h

lemma wait_until_ready_never_healthy (st : LauncherState) :
    ∀ polls : List PollStep, (∀ p ∈ polls, p.healthy = false) →
      (wait_until_ready st polls).ok = false := by
  intro polls
  induction polls with
  | nil => intro _; simp [wait_until_ready]
  | cons p rest ih =>
      intro hall
      have hp : p.healthy = false := hall p (List.mem_cons_self p rest)
      by_cases he : st.process.isSome && p.exited
      · simp [wait_until_ready, he]
      · simp only [wait_until_ready, he, hp]
        simp only [Bool.false_eq_true, if_false]
        exact ih (fun q hq => hall q (List.mem_cons_of_mem p hq))

lemma wait_until_ready_failed_reads (st : LauncherState)
    (hp : st.process.isSome = true) :
    ∀ polls : List PollStep, (wait_until_ready st polls).ok = false →
      (wait_until_ready st polls).stderrRead = true := by
  intro polls
  induction polls with
  | nil => intro _; simp [wait_until_ready]
  | cons p rest ih =>
      intro h3
      cases he : p.exited with
      | true => simp [wait_until_ready, hp, he]
      | false =>
          cases hh : p.healthy with
          | true => simp [wait_until_ready, hp, he, hh] at h3
          | false =>
              simp only [wait_until_ready, hp, he, Bool.and_false, Bool.false_eq_true,
                if_false, hh] at h3 ⊢
              exact ih h3

lemma start_popen_called (env : LauncherEnv) (st : LauncherState) :
    (start env st).popenCalled = env.exeFound := by
  cases he : env.exeFound with
  | true => cases hp : env.popenOk <;> simp [start, he, hp]
  | false => simp [start, he]

lemma start_ok_process (env : LauncherEnv) (st : LauncherState)
    (h : (start env st).ok = true) : (start env st).state.process = some () := by
  cases he : env.exeFound with
  | true =>
      cases hp : env.popenOk with
      | true =>
          simp only [start, he, hp, if_true] at h ⊢
          rw [wait_until_ready_ok_state _ _ h]
      | false => simp [start, he, hp] at h
  | false => simp [start, he] at h

/-- Claim C6: ensure_running returns True exactly when the agent already
answers the health probe or the start attempt succeeds; when it already
answers, no launch is attempted; and it returns False (without raising -
the model is a total function) in each expected failure mode: executable
not found, OS-level launch failure, premature exit of the child on some
pass of the readiness loop, and the start timeout elapsing with no
healthy probe. -/
theorem ensure_running_contract (env : LauncherEnv) (st : LauncherState) :
    (ensure_running env st).ok = (env.healthNow || (start env st).ok) ∧
    (ensure_running env st).popenCalled = (!env.healthNow && env.exeFound) ∧
    (ensure_running { env with healthNow := false, exeFound := false } st).ok = false ∧
    (ensure_running { env with healthNow := false, exeFound := true, popenOk := false }
      st).ok = false ∧
    (∀ hl rest,
      (ensure_running { env with
          healthNow := false, exeFound := true, popenOk := true,
          polls := PollStep.mk true hl :: rest } st).ok = false) ∧
    (∀ n,
      (ensure_running { env with
          healthNow := false, exeFound := true, popenOk := true,
          polls := List.replicate n (PollStep.mk false false) } st).ok = false) := by
  refine ⟨?_, ?_, ?_, ?_, ?_, ?_⟩
  · cases hn : env.healthNow with
    | true => simp [ensure_running, hn]
    | false =>
        simp only [ensure_running, hn, Bool.false_eq_true, if_false, Bool.false_or]
        split <;> rfl
  · cases hn : env.healthNow with
    | true => simp [ensure_running, hn]
    | false =>
        simp only [ensure_running, hn, Bool.false_eq_true, if_false, Bool.not_false,
          Bool.true_and]
        rw [← start_popen_called env st]
        split <;> rfl
  · simp [ensure_running, start]
  · simp [ensure_running, start]
  · intro hl rest
    simp [ensure_running, start, wait_until_ready]
  · intro n
    have hw := wait_until_ready_never_healthy
      { st with stderrOpen := true, process := some () }
      (List.replicate n (PollStep.mk false false))
      (by intro p hp; simp [List.eq_of_mem_replicate hp])
    simp [ensure_running, start, hw]

/-- Claim C7: when the agent was not already up, the start attempt
succeeded, and the race check then sees that the managed child already
exited, ensure_running still returns True and cedes ownership: the
process handle is cleared (and the stderr log closed), so the supervisor
owns no process. -/
theorem race_cedes_ownership (env : LauncherEnv) (st : LauncherState)
    (h0 : env.healthNow = false) (h1 : (start env st).ok = true)
    (h2 : env.exitedAfterStart = true) :
    (ensure_running env st).ok = true ∧
    (ensure_running env st).state.process = none ∧
    (ensure_running env st).state.stderrOpen = false := by
  have hp := start_ok_process env st h1
  simp [ensure_running, h0, h1, h2, hp, close_stderr]

/-- Witness for race_cedes_ownership: the probe is down, the executable
is found, Popen succeeds, the first readiness pass sees a healthy agent,
and the race check then sees the child gone. -/
theorem race_cedes_ownership_witness :
    (LauncherEnv.mk false true true [PollStep.mk false true] true).healthNow = false ∧
    (start (LauncherEnv.mk false true true [PollStep.mk false true] true)
      (LauncherState.mk none false)).ok = true ∧
    (LauncherEnv.mk false true true [PollStep.mk false true] true).exitedAfterStart = true ∧
    ((ensure_running (LauncherEnv.mk false true true [PollStep.mk false true] true)
        (LauncherState.mk none false)).ok = true ∧
      (ensure_running (LauncherEnv.mk false true true [PollStep.mk false true] true)
        (LauncherState.mk none false)).state.process = none ∧
      (ensure_running (LauncherEnv.mk false true true [PollStep.mk false true] true)
        (LauncherState.mk none false)).state.stderrOpen = false) :=
  ⟨rfl, by decide, rfl,
    race_cedes_ownership (LauncherEnv.mk false true true [PollStep.mk false true] true)
      (LauncherState.mk none false) rfl (by decide) rfl⟩

/-- Counterexample to claim C8 as stated: when the executable is not
found, start reports a FAILED outcome but never reads the stderr log, so
no child diagnostic output is captured or surfaced (no child ever ran in
this mode). -/
theorem start_diagnostics_counterexample :
    (start (LauncherEnv.mk false false true [] false)
      (LauncherState.mk none false)).ok = false ∧
    (start (LauncherEnv.mk false false true [] false)
      (LauncherState.mk none false)).stderrRead = false := by
  decide

/-- Claim C8 amended: in the FAILED outcomes in which the child process
was actually launched - it exited before becoming healthy, or the start
timeout elapsed without a healthy probe - the diagnostic output of the
child is captured and surfaced by reading the stderr log; in the
executable-not-found and OS-level-launch-failure modes no child ran, the
failure is only logged, and the stderr log is not read. -/
theorem start_diagnostics_amended (env : LauncherEnv) (st : LauncherState)
    (h1 : env.exeFound = true) (h2 : env.popenOk = true)
    (h3 : (start env st).ok = false) :
    (start env st).stderrRead = true ∧
    (start { env with exeFound := false } st).stderrRead = false ∧
    (start { env with exeFound := true, popenOk := false } st).stderrRead = false := by
  refine ⟨?_, by simp [start], by simp [start]⟩
  simp only [start, h1, h2, if_true] at h3 ⊢
  refine wait_until_ready_failed_reads _ ?_ env.polls h3
  simp

/-- Witness for start_diagnostics_amended: executable found, Popen
succeeds, and the timeout elapses with no pass seeing a healthy agent. -/
theorem start_diagnostics_amended_witness :
    (LauncherEnv.mk false true true [] false).exeFound = true ∧
    (LauncherEnv.mk false true true [] false).popenOk = true ∧
    (start (LauncherEnv.mk false true true [] false)
      (LauncherState.mk none false)).ok = false ∧
    ((start (LauncherEnv.mk false true true [] false)
        (LauncherState.mk none false)).stderrRead = true ∧
      (start { LauncherEnv.mk false true true [] false with exeFound := false }
        (LauncherState.mk none false)).stderrRead = false ∧
      (start
        { LauncherEnv.mk false true true [] false with
          exeFound := true, popenOk := false }
        (LauncherState.mk none false)).stderrRead = false) :=
  ⟨rfl, rfl, by decide,
    start_diagnostics_amended (LauncherEnv.mk false true true [] false)
      (LauncherState.mk none false) rfl rfl (by decide)⟩

/-- Claim C9: terminate sends the graceful termination signal exactly
when this supervisor holds a process handle and poll() reports the child
still alive (so a pre-existing external process, or one whose ownership
was ceded by clearing the handle, is never signalled); it force-kills
exactly when it signalled and the grace period elapsed first; and in
every case the stderr log resource is released while the handle itself is
left as it was. -/
theorem terminate_contract (alive graceful : Bool) (st : LauncherState) :
    (terminate alive graceful st).terminateSent = (st.process.isSome && alive) ∧
    (terminate alive graceful st).killSent =
      ((st.process.isSome && alive) && !graceful) ∧
    (terminate alive graceful st).state.stderrOpen = false ∧
    (terminate alive graceful st).state.process = st.process := by
  by_cases h : st.process.isSome && alive <;>
    simp [terminate, close_stderr, h]

end Bridge
